import Mathlib

/-
Verification of the palworld-restarter supervisor (src/main.py) against its
design specification.

The embedding models:
  * `MemoryMetrics` and the body of `DiscordBot.update_presence`
    (src/main.py lines 19-32 and 111-125), with Python division raising
    `ZeroDivisionError` on a zero divisor;
  * `PalworldProcess.start` / `PalworldProcess.stop` (lines 41-66) and
    `DiscordBot.restart_server` (lines 101-103) as state transformers over
    the `_proc` slot, returning a possible Python exception, the successor
    state and the list of OS-level effects performed;
  * the interleaving of two asyncio tasks running the same coroutine body
    (two `start` calls, or two `shutdown` calls scheduled from the SIGINT
    and SIGTERM handlers of lines 168-170), as a small-step machine with an
    explicit program counter per task, one step per segment between awaits.
-/

namespace Palworld

/-- OS-level effects observable at the process boundary: spawning a child,
sending SIGTERM to a pid, `wait()` returning for a pid, and closing the
gateway connection. -/
inductive Event where
  | spawn (pid : Nat)
  | sigterm (pid : Nat)
  | waitExit (pid : Nat)
  | close
deriving DecidableEq, Repr

/-- Python exceptions the embedded code can raise. -/
inductive PyError where
  | zeroDivision
  | spawnError
  | processLookup
  | metricsError
deriving DecidableEq, Repr

/-- The `MemoryMetrics` dataclass (src/main.py lines 19-24): memory and swap
figures, embedded as rationals. -/
structure MemoryMetrics where
  total : Rat
  used : Rat
  swap_total : Rat
  swap_used : Rat
deriving DecidableEq, Repr

/-- Python division: raises `ZeroDivisionError` when the divisor is zero,
otherwise yields the exact quotient. -/
def pyDiv (a b : Rat) : Except PyError Rat :=
  if b = 0 then .error .zeroDivision else .ok (a / b)

/-- The pair of percentages the presence string is formatted from
(src/main.py line 118). -/
structure Presence where
  memory_percent : Rat
  swap_percent : Rat
deriving DecidableEq, Repr

/-- The body of one iteration of `DiscordBot.update_presence`
(src/main.py lines 112-125): fetch metrics, compute
`used / total * 100` and `swap_used / swap_total * 100`, and publish.
The argument is the outcome of `MemoryMetrics.fetch()`; any exception —
a failed fetch or a `ZeroDivisionError` — propagates, because the body
contains no exception handler. -/
def update_presence (fetch : Except PyError MemoryMetrics) :
    Except PyError Presence :=
  match fetch with
  | .error e => .error e
  | .ok metrics =>
    match pyDiv metrics.used metrics.total with
    | .error e => .error e
    | .ok memory_percent =>
      match pyDiv metrics.swap_used metrics.swap_total with
      | .error e => .error e
      | .ok swap_percent =>
        .ok { memory_percent := memory_percent * 100
              swap_percent := swap_percent * 100 }

/-- The mutable state of a `PalworldProcess` (src/main.py line 39): the
`_proc` slot holds the pid of the live child, if any.  `nextPid` is the
OS's source of fresh process identities: each successful spawn hands out
`nextPid` and bumps it, so a well-formed state has every recorded pid
below `nextPid`. -/
structure SupState where
  proc : Option Nat
  nextPid : Nat
deriving DecidableEq, Repr

/-- The supervisor state visible to an observer: `Running` with the child's
identity, or `Stopped`. -/
inductive SupervisorState where
  | Running (pid : Nat)
  | Stopped
deriving DecidableEq, Repr

/-- Modelled from the spec: the `status()` observer of §4.1 ("returns
current SupervisorState and, if Running, process identity") has no method
of its own in src/main.py; it reads the `_proc` slot that the source code
does expose. -/
def status (s : SupState) : SupervisorState :=
  match s.proc with
  | some p => .Running p
  | none => .Stopped

/-- `PalworldProcess.start` (src/main.py lines 41-51): if `_proc` is set,
return immediately; otherwise call `create_subprocess_exec` — whose
failure (`spawnFails`) raises before `_proc` is assigned — and store the
new handle.  Result: the exception raised (if any), the successor state,
and the effects performed. -/
def start (spawnFails : Bool) (s : SupState) :
    Option PyError × SupState × List Event :=
  match s.proc with
  | some _ => (none, s, [])
  | none =>
    if spawnFails then (some .spawnError, s, [])
    else (none, ⟨some s.nextPid, s.nextPid + 1⟩, [.spawn s.nextPid])

/-- `PalworldProcess.stop` (src/main.py lines 53-66): if `_proc` is unset,
return immediately; otherwise `send_signal(SIGTERM)` — whose failure
(`sendFails`, e.g. `ProcessLookupError`) raises before anything else
happens — then `await wait()`, and only then clear `_proc`. -/
def stop (sendFails : Bool) (s : SupState) :
    Option PyError × SupState × List Event :=
  match s.proc with
  | none => (none, s, [])
  | some p =>
    if sendFails then (some .processLookup, s, [])
    else (none, ⟨none, s.nextPid⟩, [.sigterm p, .waitExit p])

/-- `DiscordBot.restart_server` (src/main.py lines 101-103): `await stop()`
then `await start()`; if `stop` raises, `start` is never reached. -/
def restart (s : SupState) : Option PyError × SupState × List Event :=
  let r1 := stop false s
  match r1.1 with
  | some e => (some e, r1.2.1, r1.2.2)
  | none =>
    let r2 := start false r1.2.1
    (r2.1, r2.2.1, r1.2.2 ++ r2.2.2)

/-- Number of child processes spawned in a trace. -/
def spawnCount (t : List Event) : Nat :=
  t.countP fun e => match e with | .spawn _ => true | _ => false

/-- Number of SIGTERM signals sent in a trace. -/
def sigtermCount (t : List Event) : Nat :=
  t.countP fun e => match e with | .sigterm _ => true | _ => false

/-- Number of gateway `close()` calls in a trace. -/
def closeCount (t : List Event) : Nat :=
  t.countP fun e => match e with | .close => true | _ => false

/-- Program counter of one asyncio task, one value per segment of the
coroutine body between awaits. -/
inductive PC where
  | p0
  | p1
  | p2
  | pdone
deriving DecidableEq, Repr

/-- Two asyncio tasks running the same coroutine body against the shared
`_proc` slot, plus the trace of effects so far. -/
structure CState where
  sup : SupState
  pcA : PC
  pcB : PC
  trace : List Event
deriving DecidableEq, Repr

/-- One scheduling quantum of a task running `PalworldProcess.start`
(src/main.py lines 41-51).  `p0`: run from entry up to the
`await create_subprocess_exec` — the `if self._proc` check happens here; a
task that passes the check suspends at the await.  `p1`: the subprocess
has been created; resume, assign `self._proc`, finish. -/
def startTaskStep : PC → SupState → PC × SupState × List Event
  | .p0, s =>
    match s.proc with
    | some _ => (.pdone, s, [])
    | none => (.p1, s, [])
  | .p1, s => (.pdone, ⟨some s.nextPid, s.nextPid + 1⟩, [.spawn s.nextPid])
  | pc, s => (pc, s, [])

/-- One scheduling quantum of a task running `DiscordBot.shutdown`
(src/main.py lines 134-138), i.e. `self._pp.stop()` then `self.close()`.
`p0`: run `stop` from entry up to the `await self._proc.wait()` — the
`if not self._proc` check and the synchronous `send_signal(SIGTERM)`
happen here.  `p1`: `wait()` has returned; clear `self._proc`.  `p2`:
`await self.close()`. -/
def shutdownTaskStep : PC → SupState → PC × SupState × List Event
  | .p0, s =>
    match s.proc with
    | none => (.p2, s, [])
    | some p => (.p1, s, [.sigterm p])
  | .p1, s =>
    match s.proc with
    | some p => (.p2, ⟨none, s.nextPid⟩, [.waitExit p])
    | none => (.p2, s, [])
  | .p2, s => (.pdone, s, [.close])
  | pc, s => (pc, s, [])

/-- Run one quantum of task A (`true`) or task B (`false`). -/
def stepTask (stepF : PC → SupState → PC × SupState × List Event)
    (first : Bool) (c : CState) : CState :=
  if first then
    let r := stepF c.pcA c.sup
    ⟨r.2.1, r.1, c.pcB, c.trace ++ r.2.2⟩
  else
    let r := stepF c.pcB c.sup
    ⟨r.2.1, c.pcA, r.1, c.trace ++ r.2.2⟩

/-- Run the two tasks under an explicit cooperative schedule. -/
def runTasks (stepF : PC → SupState → PC × SupState × List Event) :
    List Bool → CState → CState
  | [], c => c
  | b :: rest, c => runTasks stepF rest (stepTask stepF b c)

/-- C1: a `start` while the supervisor is Running returns immediately with
no effect and spawns nothing, so two consecutive `start` calls from the
Stopped state with no intervening `stop` spawn exactly one process. -/
theorem start_idempotent_single_spawn (s : SupState) :
    (∀ p, s.proc = some p → start false s = (none, s, [])) ∧
    (s.proc = none →
      spawnCount ((start false s).2.2 ++
        (start false (start false s).2.1).2.2) = 1) := by
  refine ⟨fun p hp => ?_, fun h => ?_⟩
  · simp [start, hp]
  · simp [start, h, spawnCount]

theorem start_idempotent_single_spawn_witness :
    start false ⟨some 4, 5⟩ = (none, ⟨some 4, 5⟩, []) ∧
    spawnCount ((start false ⟨none, 0⟩).2.2 ++
      (start false (start false ⟨none, 0⟩).2.1).2.2) = 1 :=
  ⟨(start_idempotent_single_spawn ⟨some 4, 5⟩).1 4 rfl,
   (start_idempotent_single_spawn ⟨none, 0⟩).2 rfl⟩

/-- C3: a `stop` in the Running state sends exactly one SIGTERM, then waits
for the exit, and only after the wait clears the handle and reaches
Stopped — the result trace is `[sigterm p, waitExit p]` and the final
state has no handle; a `stop` in the Stopped state is a no-op that sends
no signal. -/
theorem stop_two_phase (s : SupState) :
    (∀ p, s.proc = some p →
      stop false s = (none, ⟨none, s.nextPid⟩, [.sigterm p, .waitExit p]) ∧
      status (stop false s).2.1 = .Stopped) ∧
    (s.proc = none → stop false s = (none, s, [])) := by
  refine ⟨fun p hp => ?_, fun h => ?_⟩
  · simp [stop, status, hp]
  · simp [stop, h]

theorem stop_two_phase_witness :
    (stop false ⟨some 5, 6⟩ = (none, ⟨none, 6⟩, [.sigterm 5, .waitExit 5]) ∧
      status (stop false ⟨some 5, 6⟩).2.1 = .Stopped) ∧
    stop false ⟨none, 6⟩ = (none, ⟨none, 6⟩, []) :=
  ⟨(stop_two_phase ⟨some 5, 6⟩).1 5 rfl, (stop_two_phase ⟨none, 6⟩).2 rfl⟩

/-- C6: `restart` from the Running state performs the whole `stop` phase —
SIGTERM then the wait for the confirmed exit — strictly before the spawn
of the `start` phase, and ends Running with a fresh process identity
different from the old one. -/
theorem restart_stop_completes_before_start (s : SupState) (p : Nat)
    (hp : s.proc = some p) (hw : p < s.nextPid) :
    restart s = (none, ⟨some s.nextPid, s.nextPid + 1⟩,
      [.sigterm p, .waitExit p, .spawn s.nextPid]) ∧
    status (restart s).2.1 = .Running s.nextPid ∧ s.nextPid ≠ p := by
  refine ⟨?_, ?_, Nat.ne_of_gt hw⟩ <;>
    simp [restart, stop, start, status, hp]

theorem restart_stop_completes_before_start_witness :
    restart ⟨some 3, 7⟩ = (none, ⟨some 7, 8⟩,
      [.sigterm 3, .waitExit 3, .spawn 7]) ∧
    status (restart ⟨some 3, 7⟩).2.1 = .Running 7 ∧ 7 ≠ 3 :=
  restart_stop_completes_before_start ⟨some 3, 7⟩ 3 rfl (by decide)

/-- C7: a `start` from the Stopped state whose spawn fails surfaces the
exception to the caller, performs no effect, and leaves the supervisor
Stopped with no handle recorded — there is a single spawn attempt and no
retry in the call. -/
theorem start_spawn_failure_stays_stopped (s : SupState)
    (h : s.proc = none) :
    start true s = (some .spawnError, s, []) ∧ status s = .Stopped := by
  simp [start, status, h]

theorem start_spawn_failure_stays_stopped_witness :
    start true ⟨none, 4⟩ = (some .spawnError, ⟨none, 4⟩, []) ∧
    status ⟨none, 4⟩ = .Stopped :=
  start_spawn_failure_stays_stopped ⟨none, 4⟩ rfl

/-- C10: `stop` clears the handle only after both the signal send and the
wait complete: when `send_signal` raises, the exception propagates, the
state is unchanged with the handle still set, and `status` still reports
Running. -/
theorem stop_signal_failure_keeps_handle (s : SupState) (p : Nat)
    (h : s.proc = some p) :
    stop true s = (some .processLookup, s, []) ∧ status s = .Running p := by
  simp [stop, status, h]

theorem stop_signal_failure_keeps_handle_witness :
    stop true ⟨some 9, 10⟩ = (some .processLookup, ⟨some 9, 10⟩, []) ∧
    status ⟨some 9, 10⟩ = .Running 9 :=
  stop_signal_failure_keeps_handle ⟨some 9, 10⟩ 9 rfl

/-- An iteration whose snapshot has both totals nonzero publishes the two
quotient percentages. -/
theorem update_presence_ok (m : MemoryMetrics) (hT : m.total ≠ 0)
    (hS : m.swap_total ≠ 0) :
    update_presence (.ok m) =
      .ok ⟨m.used / m.total * 100, m.swap_used / m.swap_total * 100⟩ := by
  simp [update_presence, pyDiv, hT, hS]

/-- C9: whenever an iteration with `total > 0` publishes a presence, the
published memory percentage equals `used / total * 100`, and when
additionally `swap_total > 0` the swap percentage equals
`swap_used / swap_total * 100`. -/
theorem published_percentages (m : MemoryMetrics) (p : Presence)
    (hT : 0 < m.total) (hpub : update_presence (.ok m) = .ok p) :
    p.memory_percent = m.used / m.total * 100 ∧
    (0 < m.swap_total → p.swap_percent = m.swap_used / m.swap_total * 100) := by
  have hT0 : m.total ≠ 0 := ne_of_gt hT
  by_cases hs : m.swap_total = 0
  · simp [update_presence, pyDiv, hs, hT0] at hpub
  · rw [update_presence_ok m hT0 hs] at hpub
    injection hpub with h
    subst h
    exact ⟨rfl, fun _ => rfl⟩

theorem published_percentages_witness :
    (0 : Rat) < 1000 ∧
    update_presence (.ok ⟨1000, 500, 1, 0⟩) = .ok ⟨50, 0⟩ ∧
    ((Presence.mk 50 0).memory_percent = (500 : Rat) / 1000 * 100 ∧
      ((0 : Rat) < 1 →
        (Presence.mk 50 0).swap_percent = (0 : Rat) / 1 * 100)) :=
  ⟨by norm_num, by norm_num [update_presence, pyDiv],
   published_percentages ⟨1000, 500, 1, 0⟩ ⟨50, 0⟩ (by norm_num)
     (by norm_num [update_presence, pyDiv])⟩

/-- C2: the code has no division-by-zero handling — an iteration whose
snapshot has `total = 0` or `swap_total = 0` raises `ZeroDivisionError`
instead of publishing a sentinel; in particular `swap_total = 0`,
`swap_used = 0` is an arithmetic fault, not a defined sentinel. -/
theorem update_presence_zero_total_raises :
    update_presence (.ok ⟨0, 0, 1, 0⟩) = .error .zeroDivision ∧
    update_presence (.ok ⟨1000, 500, 0, 0⟩) = .error .zeroDivision :=
  ⟨rfl, rfl⟩

/-- C5: the iteration body of `update_presence` contains no exception
handler — a failed metrics read propagates out of the iteration instead of
being logged and skipped. -/
theorem update_presence_propagates_fetch_failure :
    update_presence (.error .metricsError) = .error .metricsError := rfl

/-- C8: the lifecycle operations are not mutually excluded — two `start`
tasks interleaved at the spawn await both pass the `_proc` check and both
spawn, leaving two live processes while the slot records only the second:
from the Stopped state, the schedule A, B, A, B yields two spawn events
with `_proc = some 1` and the process spawned as pid 0 left dangling. -/
theorem concurrent_starts_spawn_twice :
    spawnCount (runTasks startTaskStep [true, false, true, false]
      ⟨⟨none, 0⟩, .p0, .p0, []⟩).trace = 2 ∧
    (runTasks startTaskStep [true, false, true, false]
      ⟨⟨none, 0⟩, .p0, .p0, []⟩).sup.proc = some 1 := by
  decide

/-- C4: two shutdown tasks created by two quick signals are not guarded —
when the second task runs while the first is suspended in `wait()`, the
`_proc` slot is still set, so the second task sends a second SIGTERM and
each task closes the gateway: the shutdown effects happen twice, not
once. -/
theorem concurrent_shutdowns_run_twice :
    sigtermCount (runTasks shutdownTaskStep
      [true, false, true, false, true, false]
      ⟨⟨some 7, 8⟩, .p0, .p0, []⟩).trace = 2 ∧
    closeCount (runTasks shutdownTaskStep
      [true, false, true, false, true, false]
      ⟨⟨some 7, 8⟩, .p0, .p0, []⟩).trace = 2 := by
  decide

end Palworld
